import Mathlib

/-!
Verification development for the service-orchestration core of the
`academia-slides` repository.

The definitions below are a shallow embedding of the TypeScript source:

* `src/types/services.ts` (the unnamed part holding `SERVICE_REGISTRY`,
  `TASK_ROUTING`, `ServiceHealth`, `AIService`, …): pure data, embedded
  verbatim as Lean structures and constant lists.
* `src/lib/service-orchestrator.ts`: the `ServiceManager` class (its two
  `Map`s become insertion-ordered association lists, matching JavaScript
  `Map` semantics: `set` on an existing key replaces in place, otherwise
  appends), `planVisuals`, `extractChartData`, and the
  `orchestratePresentation` pipeline.  External asynchronous calls
  (text analysis, slide generation, per-visual provider calls) are
  modelled as explicit outcome parameters of type `Except`: an `ok`
  value is a resolved promise, an `error` is a thrown/rejected one.
  The concurrent `Promise.all` fan-out is modelled as a fold over the
  plans: every unit writes only its own slide index, so the join of the
  concurrent units is observationally this fold.
* `src/lib/domain-experts.ts`: `getActiveService` and its
  `getServiceForTask` wrapper.

JavaScript `number` fields that the orchestration logic never computes
with (latencies, error rates, temperatures) are carried as `Nat`/`Rat`
so that every structure stays decidable; the numeral text captured by
`extractChartData`'s regular expression is kept as the matched string
(the `parseFloat` on it is never consumed by any logic modelled here).
-/

/-! ### Association lists with JavaScript `Map` semantics -/

/-- Lookup in an association list (JavaScript `Map.get`). -/
def aget {κ α : Type} [DecidableEq κ] : List (κ × α) → κ → Option α
  | [], _ => none
  | (k, v) :: rest, key => if k = key then some v else aget rest key

/-- Update in an association list (JavaScript `Map.set`): replace in
place when the key is present, append otherwise. -/
def aset {κ α : Type} [DecidableEq κ] : List (κ × α) → κ → α → List (κ × α)
  | [], key, value => [(key, value)]
  | (k, v) :: rest, key, value =>
    if k = key then (key, value) :: rest else (k, v) :: aset rest key value

/-- `Array.from(map.values())`: the values in insertion order. -/
def avalues {κ α : Type} (m : List (κ × α)) : List α :=
  m.map (fun kv => kv.2)

/-! ### String helpers (JavaScript `String.prototype.includes`) -/

/-- JavaScript `hay.includes(needle)`: substring test. -/
def strContains (hay needle : String) : Bool :=
  hay.data.tails.any (fun t => needle.data.isPrefixOf t)

/-- JavaScript `s.toLowerCase()`, character-wise (the source only ever
lowercases ASCII task names and titles). -/
def strToLower (s : String) : String :=
  String.mk (s.data.map Char.toLower)

/-- JavaScript `s.trim()`: strip whitespace from both ends. -/
def strTrim (s : String) : String :=
  String.mk (((s.data.dropWhile Char.isWhitespace).reverse.dropWhile
    Char.isWhitespace).reverse)

/-! ### Data model from `src/types/services.ts` -/

/-- `ServiceType` union from the types module. -/
inductive ServiceType : Type
  | textAnalysis
  | imageGeneration
  | chartGeneration
  | diagramGeneration
  | equationRendering
  | voiceGeneration
  | slideLayout
  | citationFormatting
deriving DecidableEq

/-- The `status` field of `ServiceHealth`. -/
inductive HealthState : Type
  | healthy
  | degraded
  | down
  | unknown
deriving DecidableEq

/-- `ServiceConfig`.  `temperature` is a JS float, carried as `Rat`. -/
structure ServiceConfig : Type where
  apiKey : Option String := none
  endpoint : Option String := none
  model : Option String := none
  maxRequestsPerMinute : Option Nat := none
  timeout : Option Nat := none
  enabled : Bool
  temperature : Option Rat := none
  maxTokens : Option Nat := none
deriving DecidableEq

/-- A `Partial<AIService.config>` argument: each present key overrides
the corresponding field on merge (JavaScript object spread). -/
structure ConfigPatch : Type where
  apiKey : Option String := none
  endpoint : Option String := none
  model : Option String := none
  maxRequestsPerMinute : Option Nat := none
  timeout : Option Nat := none
  enabled : Option Bool := none
  temperature : Option Rat := none
  maxTokens : Option Nat := none
deriving DecidableEq

/-- `{ ...service.config, ...config }`: keys present in the patch win. -/
def applyPatch (c : ServiceConfig) (p : ConfigPatch) : ServiceConfig where
  apiKey := match p.apiKey with | some v => some v | none => c.apiKey
  endpoint := match p.endpoint with | some v => some v | none => c.endpoint
  model := match p.model with | some v => some v | none => c.model
  maxRequestsPerMinute := match p.maxRequestsPerMinute with | some v => some v | none => c.maxRequestsPerMinute
  timeout := match p.timeout with | some v => some v | none => c.timeout
  enabled := p.enabled.getD c.enabled
  temperature := match p.temperature with | some v => some v | none => c.temperature
  maxTokens := match p.maxTokens with | some v => some v | none => c.maxTokens

/-- `AIService` record. -/
structure AIService : Type where
  id : String
  type : ServiceType
  name : String
  provider : String
  description : String
  capabilities : List String
  config : ServiceConfig
  requiresApiKey : Option Bool := none
  priority : Option Nat := none
deriving DecidableEq

/-- `fallbackStrategy` union of `TaskRouting`. -/
inductive FallbackStrategy : Type
  | nextAvailable
  | fail
  | degrade
deriving DecidableEq

/-- `TaskRouting` record. -/
structure TaskRouting : Type where
  task : String
  serviceType : ServiceType
  preferredServices : List String
  fallbackStrategy : FallbackStrategy
deriving DecidableEq

/-- `ServiceHealth` record.  `latency` and `errorRate` are JS numbers
never computed with by the orchestrator; carried as `Nat`/`Rat`. -/
structure ServiceHealth : Type where
  serviceId : String
  status : HealthState
  latency : Nat
  lastChecked : String
  errorRate : Rat
  remainingQuota : Option Nat := none
deriving DecidableEq

/-! ### `SERVICE_REGISTRY` (verbatim from the types module) -/

/-- The fourteen registered services, in registration order. -/
def SERVICE_REGISTRY : List AIService := [
  { id := "openai-gpt4", type := ServiceType.textAnalysis, name := "GPT-4o",
    provider := "OpenAI",
    description := "Best for paper analysis, slide content, summaries",
    capabilities := ["paper-analysis", "slide-generation", "summarization", "qa-generation"],
    config := { enabled := true }, priority := some 1 },
  { id := "anthropic-claude", type := ServiceType.textAnalysis, name := "Claude 3.5 Sonnet",
    provider := "Anthropic",
    description := "Excellent for academic content, long context",
    capabilities := ["paper-analysis", "slide-generation", "script-generation"],
    config := { enabled := true }, priority := some 2 },
  { id := "google-gemini", type := ServiceType.textAnalysis, name := "Gemini Pro",
    provider := "Google",
    description := "Good free tier, multimodal",
    capabilities := ["paper-analysis", "slide-generation"],
    config := { enabled := true }, priority := some 3 },
  { id := "local-ollama", type := ServiceType.textAnalysis, name := "Local Ollama",
    provider := "Local",
    description := "100% private, runs locally",
    capabilities := ["paper-analysis", "slide-generation"],
    config := { enabled := false }, priority := some 4 },
  { id := "nano-banana", type := ServiceType.imageGeneration, name := "Nano Banana",
    provider := "Nano Banana",
    description := "Fast, affordable image generation for slides",
    capabilities := ["slide-illustrations", "diagrams", "backgrounds", "icons"],
    config := { enabled := true }, priority := some 1 },
  { id := "dall-e-3", type := ServiceType.imageGeneration, name := "DALL-E 3",
    provider := "OpenAI",
    description := "High quality, follows prompts precisely",
    capabilities := ["slide-illustrations", "diagrams", "backgrounds"],
    config := { enabled := true }, priority := some 2 },
  { id := "midjourney", type := ServiceType.imageGeneration, name := "Midjourney API",
    provider := "Midjourney",
    description := "Artistic, beautiful visuals",
    capabilities := ["slide-illustrations", "backgrounds", "covers"],
    config := { enabled := false }, priority := some 3 },
  { id := "stable-diffusion", type := ServiceType.imageGeneration, name := "Stable Diffusion XL",
    provider := "Stability AI",
    description := "Open source, customizable",
    capabilities := ["slide-illustrations", "diagrams", "backgrounds"],
    config := { enabled := false }, priority := some 4 },
  { id := "quickchart", type := ServiceType.chartGeneration, name := "QuickChart",
    provider := "QuickChart",
    description := "Generate charts from data",
    capabilities := ["bar-charts", "line-charts", "pie-charts", "scatter-plots"],
    config := { enabled := true }, priority := some 1 },
  { id := "chartjs-server", type := ServiceType.chartGeneration, name := "Chart.js Server",
    provider := "Internal",
    description := "Custom chart rendering",
    capabilities := ["all-chart-types", "custom-styling"],
    config := { enabled := true }, priority := some 2 },
  { id := "mermaid", type := ServiceType.diagramGeneration, name := "Mermaid.js",
    provider := "Mermaid",
    description := "Flowcharts, sequence diagrams, graphs",
    capabilities := ["flowcharts", "sequence-diagrams", "class-diagrams", "er-diagrams", "gantt"],
    config := { enabled := true }, priority := some 1 },
  { id := "plantuml", type := ServiceType.diagramGeneration, name := "PlantUML",
    provider := "PlantUML",
    description := "Complex technical diagrams",
    capabilities := ["uml-diagrams", "architecture-diagrams"],
    config := { enabled := true }, priority := some 2 },
  { id := "katex", type := ServiceType.equationRendering, name := "KaTeX",
    provider := "KaTeX",
    description := "Fast math rendering",
    capabilities := ["latex-equations", "math-symbols", "formulas"],
    config := { enabled := true }, priority := some 1 },
  { id := "mathjax", type := ServiceType.equationRendering, name := "MathJax",
    provider := "MathJax",
    description := "Comprehensive math support",
    capabilities := ["latex-equations", "asciimath", "mml"],
    config := { enabled := true }, priority := some 2 }
]

/-! ### `TASK_ROUTING` (verbatim from the types module) -/

/-- The twelve task routes, in declaration order. -/
def TASK_ROUTING : List TaskRouting := [
  { task := "paper-analysis", serviceType := ServiceType.textAnalysis,
    preferredServices := ["openai-gpt4", "anthropic-claude", "google-gemini", "local-ollama"],
    fallbackStrategy := FallbackStrategy.nextAvailable },
  { task := "slide-content-generation", serviceType := ServiceType.textAnalysis,
    preferredServices := ["openai-gpt4", "anthropic-claude", "google-gemini"],
    fallbackStrategy := FallbackStrategy.nextAvailable },
  { task := "speaker-script", serviceType := ServiceType.textAnalysis,
    preferredServices := ["anthropic-claude", "openai-gpt4"],
    fallbackStrategy := FallbackStrategy.nextAvailable },
  { task := "slide-illustration", serviceType := ServiceType.imageGeneration,
    preferredServices := ["nano-banana", "dall-e-3", "stable-diffusion"],
    fallbackStrategy := FallbackStrategy.nextAvailable },
  { task := "slide-background", serviceType := ServiceType.imageGeneration,
    preferredServices := ["nano-banana", "dall-e-3", "midjourney"],
    fallbackStrategy := FallbackStrategy.nextAvailable },
  { task := "diagram-illustration", serviceType := ServiceType.imageGeneration,
    preferredServices := ["dall-e-3", "nano-banana", "stable-diffusion"],
    fallbackStrategy := FallbackStrategy.nextAvailable },
  { task := "concept-visualization", serviceType := ServiceType.imageGeneration,
    preferredServices := ["nano-banana", "dall-e-3"],
    fallbackStrategy := FallbackStrategy.nextAvailable },
  { task := "data-chart", serviceType := ServiceType.chartGeneration,
    preferredServices := ["quickchart", "chartjs-server"],
    fallbackStrategy := FallbackStrategy.nextAvailable },
  { task := "flowchart", serviceType := ServiceType.diagramGeneration,
    preferredServices := ["mermaid", "plantuml"],
    fallbackStrategy := FallbackStrategy.nextAvailable },
  { task := "sequence-diagram", serviceType := ServiceType.diagramGeneration,
    preferredServices := ["mermaid", "plantuml"],
    fallbackStrategy := FallbackStrategy.nextAvailable },
  { task := "architecture-diagram", serviceType := ServiceType.diagramGeneration,
    preferredServices := ["plantuml", "mermaid"],
    fallbackStrategy := FallbackStrategy.nextAvailable },
  { task := "equation-render", serviceType := ServiceType.equationRendering,
    preferredServices := ["katex", "mathjax"],
    fallbackStrategy := FallbackStrategy.nextAvailable }
]

/-! ### `ServiceManager` from `src/lib/service-orchestrator.ts` -/

/-- The two private `Map`s of the `ServiceManager` class. -/
structure ManagerState : Type where
  services : List (String × AIService)
  health : List (String × ServiceHealth)
deriving DecidableEq

/-- The constructor: seed `services` from `SERVICE_REGISTRY` (spread
copies), `health` empty. -/
def initState : ManagerState where
  services := SERVICE_REGISTRY.foldl (fun m s => aset m s.id s) []
  health := []

/-- `configureService(serviceId, config)`: silently does nothing when
the id is absent; otherwise merges the partial config into that
record. -/
def configureService (st : ManagerState) (serviceId : String) (patch : ConfigPatch) :
    ManagerState :=
  match aget st.services serviceId with
  | none => st
  | some s =>
    { st with
      services := aset st.services serviceId { s with config := applyPatch s.config patch } }

/-- The health test inside `getServiceForTask`:
`!health || health.status === 'healthy'`. -/
def healthAllows (st : ManagerState) (serviceId : String) : Bool :=
  match aget st.health serviceId with
  | none => true
  | some h => decide (h.status = HealthState.healthy)

/-- The selection loop body of `getServiceForTask`, walking the
preferred ids in order. -/
def firstEligible (st : ManagerState) : List String → Option AIService
  | [] => none
  | serviceId :: rest =>
    match aget st.services serviceId with
    | some s =>
      if s.config.enabled then
        if healthAllows st serviceId then some s else firstEligible st rest
      else firstEligible st rest
    | none => firstEligible st rest

/-- `getServiceForTask(task)`: find the route, walk its preferred ids,
return the first registered, enabled service whose health record is
absent or `healthy`; `null` otherwise. -/
def getServiceForTask (routing : List TaskRouting) (st : ManagerState) (task : String) :
    Option AIService :=
  match routing.find? (fun r => r.task == task) with
  | none => none
  | some r => firstEligible st r.preferredServices

/-- `(a.priority || 99)`: JavaScript `||` also replaces `0`. -/
def effPriority (s : AIService) : Nat :=
  match s.priority with
  | none => 99
  | some 0 => 99
  | some p => p

/-- Comparator relation used by the `.sort` in `getServicesByType`. -/
def prioLe (a b : AIService) : Prop :=
  effPriority a ≤ effPriority b

instance : DecidableRel prioLe := fun _ _ => Nat.decLe _ _

instance : IsTotal AIService prioLe := ⟨fun _ _ => Nat.le_total _ _⟩

instance : IsTrans AIService prioLe := ⟨fun _ _ _ => Nat.le_trans⟩

/-- `getServicesByType(type)`: the enabled services of the type, in
insertion order, stably sorted by ascending effective priority
(JavaScript `Array.prototype.sort` is stable). -/
def getServicesByType (st : ManagerState) (t : ServiceType) : List AIService :=
  List.insertionSort prioLe
    ((avalues st.services).filter
      (fun s => decide (s.type = t) && s.config.enabled))

/-- `updateHealth(serviceId, health)`. -/
def updateHealth (st : ManagerState) (serviceId : String) (h : ServiceHealth) :
    ManagerState :=
  { st with health := aset st.health serviceId h }

/-! ### `src/lib/domain-experts.ts` selection helpers -/

/-- `getActiveService(type, services)`: first enabled service of the
type, in list order. -/
def getActiveService (t : ServiceType) (services : List AIService) : Option AIService :=
  services.find? (fun s => decide (s.type = t) && s.config.enabled)

/-- The literal `taskMap` inside `domain-experts.ts`'s
`getServiceForTask`. -/
def taskMap : List (String × ServiceType) := [
  ("image", ServiceType.imageGeneration),
  ("diagram", ServiceType.diagramGeneration),
  ("chart", ServiceType.chartGeneration),
  ("equation", ServiceType.equationRendering),
  ("voice", ServiceType.voiceGeneration),
  ("layout", ServiceType.slideLayout),
  ("citation", ServiceType.citationFormatting)
]

/-- `domain-experts.ts` `getServiceForTask(task, services)`: map the
lowercased task through `taskMap`, `undefined` when absent. -/
def domainGetServiceForTask (task : String) (services : List AIService) :
    Option AIService :=
  match aget taskMap (strToLower task) with
  | none => none
  | some t => getActiveService t services

/-! ### Slide/metadata model from `src/types/enhanced.ts` -/

/-- `ExtractedFigure` record (its `type` union carried as a string). -/
structure ExtractedFigure : Type where
  id : String
  page : Nat
  caption : String
  figKind : String
  description : String
  placeholder : Option String := none
deriving DecidableEq

/-- `ExtractedCitation` record. -/
structure ExtractedCitation : Type where
  id : String
  text : String
  authors : List String
  year : Nat
  title : Option String := none
  journal : Option String := none
  doi : Option String := none
deriving DecidableEq

/-- `SlideLayout` union. -/
inductive SlideLayout : Type
  | title
  | content
  | split
  | image
  | quote
  | references
  | figure
  | table
  | chart
  | comparison
  | timeline
  | diagram
  | equation
  | twoColumn
  | threeColumn
  | sectionDivider
  | thankYou
deriving DecidableEq

/-- `AnimationType` union. -/
inductive AnimationType : Type
  | none
  | fade
  | slide
  | zoom
  | appear
  | wipe
deriving DecidableEq

/-- `EnhancedSlide` record.  The recursive `subSlides` field is omitted:
no function modelled here ever reads it. -/
structure EnhancedSlide : Type where
  id : Nat
  title : String
  content : List String
  notes : Option String := none
  layout : SlideLayout
  imageUrl : Option String := none
  figure : Option ExtractedFigure := none
  citations : Option (List String) := none
  speakerScript : Option String := none
  timing : Option Nat := none
  animation : Option AnimationType := none
deriving DecidableEq

/-- `PaperMetadata` record. -/
structure PaperMetadata : Type where
  title : String
  authors : List String
  affiliations : List String
  abstract : String
  keywords : List String
  publicationDate : Option String := none
  doi : Option String := none
  journal : Option String := none
  conference : Option String := none
  figures : List ExtractedFigure := []
  tables : List ExtractedFigure := []
  citations : List ExtractedCitation := []
  references : List ExtractedCitation := []
  wordCount : Nat := 0
  pageCount : Nat := 0
  language : String := ""
deriving DecidableEq

/-! ### `extractChartData` -/

/-- The `\d+(?:\.\d+)?` part of the extraction pattern, started at the
head of the character list; yields the matched numeral text. -/
def parseNumber (cs : List Char) : Option String :=
  let ds := cs.takeWhile Char.isDigit
  if ds.isEmpty then none
  else
    match cs.dropWhile Char.isDigit with
    | '.' :: r2 =>
      let fs := r2.takeWhile Char.isDigit
      if fs.isEmpty then some (String.mk ds)
      else some (String.mk (ds ++ '.' :: fs))
    | _ => some (String.mk ds)

/-- One attempt of the pattern `([^:]+):\s*(\d+(?:\.\d+)?)%?` anchored
at the head of the list: a nonempty colon-free run, the colon,
whitespace, then a numeral.  Returns the trimmed label and the
numeral text. -/
def matchAt (cs : List Char) : Option (String × String) :=
  match cs.takeWhile (fun c => !(c == ':')), cs.dropWhile (fun c => !(c == ':')) with
  | [], _ => none
  | _, [] => none
  | lbl, _ :: afterColon =>
    match parseNumber (afterColon.dropWhile Char.isWhitespace) with
    | none => none
    | some v => some (strTrim (String.mk lbl), v)

/-- The regular-expression search: try the pattern at each successive
start position, taking the leftmost match. -/
def matchLine : List Char → Option (String × String)
  | [] => none
  | c :: rest =>
    match matchAt (c :: rest) with
    | some m => some m
    | none => matchLine rest

/-- The accumulator of `extractChartData` (`values` kept as the matched
numeral text, since the `parseFloat` result is never computed with). -/
structure ChartData : Type where
  labels : List String
  values : List String
  chartKind : String
deriving DecidableEq

/-- `extractChartData(content)`: scan each line for the label/number
pattern and collect matches. -/
def extractChartData (content : List String) : ChartData :=
  content.foldl
    (fun d line =>
      match matchLine line.data with
      | some (lbl, v) => { d with labels := d.labels ++ [lbl], values := d.values ++ [v] }
      | none => d)
    { labels := [], values := [], chartKind := "bar" }

/-! ### `planVisuals` -/

/-- The `visualType` union of `VisualGenerationPlan`. -/
inductive VisualType : Type
  | illustration
  | diagram
  | chart
  | equation
  | none
deriving DecidableEq

/-- `VisualGenerationPlan` record (`data` always holds chart data when
present). -/
structure VisualGenerationPlan : Type where
  slideIndex : Nat
  slideTitle : String
  visualType : VisualType
  prompt : Option String := Option.none
  data : Option ChartData := Option.none
deriving DecidableEq

/-- `slide.figure?.description || defaultPrompt`: JavaScript `||` falls
through on the empty string. -/
def figurePrompt (slide : EnhancedSlide) : String :=
  let fallback := "Illustration for: " ++ slide.title ++ ". " ++
    String.intercalate " " slide.content
  match slide.figure with
  | some f => if f.description = "" then fallback else f.description
  | none => fallback

/-- `metadata.keywords[0] || 'academic'`. -/
def firstKeyword (metadata : PaperMetadata) : String :=
  match metadata.keywords with
  | [] => "academic"
  | k :: _ => if k = "" then "academic" else k

/-- The explicit figure hint: `slide.layout === 'figure' || slide.figure`. -/
def figureHint (slide : EnhancedSlide) : Bool :=
  decide (slide.layout = SlideLayout.figure) || slide.figure.isSome

/-- The process/diagram pattern:
`slide.layout === 'diagram' || slide.title.toLowerCase().includes('method')`. -/
def processPattern (slide : EnhancedSlide) : Bool :=
  decide (slide.layout = SlideLayout.diagram) ||
    strContains (strToLower slide.title) "method"

/-- The numeric/percentage pattern: chart layout, or a body line
containing a percent sign, "increase" or "decrease". -/
def numericPattern (slide : EnhancedSlide) : Bool :=
  decide (slide.layout = SlideLayout.chart) ||
    slide.content.any (fun c => strContains c "%" || strContains c "increase" ||
      strContains c "decrease")

/-- The mathematical-notation pattern: a body line containing a dollar
sign, a backslash, or the word "equation". -/
def mathPattern (slide : EnhancedSlide) : Bool :=
  slide.content.any (fun c => strContains c "$" || strContains c "\\" ||
    strContains c "equation")

/-- The periodic fallback slot: `index % 5 === 0 && index > 0`. -/
def periodicSlot (index : Nat) : Bool :=
  decide (index % 5 = 0) && decide (0 < index)

/-- The per-slide body of the `slides.forEach` in `planVisuals`: the
ordered, first-match classification chain. -/
def classifyPlan (index : Nat) (slide : EnhancedSlide) (metadata : PaperMetadata) :
    VisualGenerationPlan :=
  if figureHint slide then
    { slideIndex := index, slideTitle := slide.title,
      visualType := VisualType.illustration, prompt := some (figurePrompt slide) }
  else if processPattern slide then
    { slideIndex := index, slideTitle := slide.title,
      visualType := VisualType.diagram,
      prompt := some ("Diagram showing " ++ slide.title ++ ": " ++
        String.intercalate ", " slide.content) }
  else if numericPattern slide then
    { slideIndex := index, slideTitle := slide.title,
      visualType := VisualType.chart, data := some (extractChartData slide.content) }
  else if mathPattern slide then
    { slideIndex := index, slideTitle := slide.title, visualType := VisualType.equation }
  else if periodicSlot index then
    { slideIndex := index, slideTitle := slide.title,
      visualType := VisualType.illustration,
      prompt := some ("Abstract background illustration for: " ++ slide.title ++ ". " ++
        firstKeyword metadata ++ " theme.") }
  else
    { slideIndex := index, slideTitle := slide.title, visualType := VisualType.none }

/-- The indexed traversal of `planVisuals`: classify each slide and keep
the plans whose `visualType` is not `none`. -/
def planVisualsGo (metadata : PaperMetadata) : Nat → List EnhancedSlide →
    List VisualGenerationPlan
  | _, [] => []
  | i, s :: rest =>
    let plan := classifyPlan i s metadata
    if plan.visualType ≠ VisualType.none then plan :: planVisualsGo metadata (i + 1) rest
    else planVisualsGo metadata (i + 1) rest

/-- `planVisuals(slides, metadata)`. -/
def planVisuals (slides : List EnhancedSlide) (metadata : PaperMetadata) :
    List VisualGenerationPlan :=
  planVisualsGo metadata 0 slides

/-! ### `orchestratePresentation` -/

/-- The `provider` union of `config.visualService`. -/
inductive VisualProvider : Type
  | nanoBanana
  | dallE
deriving DecidableEq

/-- `config.visualService`. -/
structure VisualServiceConfig : Type where
  provider : VisualProvider
  apiKey : String
deriving DecidableEq

/-- `OrchestrationResult`: the three maps are keyed by slide index.
The record has no field recording failures. -/
structure OrchestrationResult : Type where
  slides : List EnhancedSlide
  visuals : List (Nat × String)
  charts : List (Nat × String)
  diagrams : List (Nat × String)
deriving DecidableEq

/-- The `generateVisuals`/`visualService` part of the `config`
argument (`textService` is subsumed by the outcome parameters). -/
structure OrchestrationConfig : Type where
  generateVisuals : Bool
  visualService : Option VisualServiceConfig
deriving DecidableEq

/-- One run of the pipeline, instrumented with the number of times the
work planner (`planVisuals`) was invoked. -/
structure PipelineRun : Type where
  result : Except String OrchestrationResult
  plannerCalls : Nat

/-- JavaScript truthiness of `plan.prompt` (empty string is falsy). -/
def promptTruthy : Option String → Bool
  | Option.none => false
  | some p => !(p == "")

/-- One unit of the `visualPlans.map(async (plan) => { try … catch … })`
fan-out.  `callOutcome` is the result of the awaited provider call for
this plan (`ok url`/`ok code`, or `error` for a thrown rejection); the
`catch` arm records nothing.  An illustration plan under the `dall-e`
provider performs no call and records nothing, exactly as in the
source. -/
def applyFanoutUnit (vs : VisualServiceConfig)
    (callOutcome : VisualGenerationPlan → Except String String)
    (res : OrchestrationResult) (plan : VisualGenerationPlan) : OrchestrationResult :=
  if plan.visualType = VisualType.illustration ∧ promptTruthy plan.prompt then
    if vs.provider = VisualProvider.nanoBanana then
      match callOutcome plan with
      | Except.ok url => { res with visuals := aset res.visuals plan.slideIndex url }
      | Except.error _ => res
    else res
  else if plan.visualType = VisualType.chart ∧ plan.data.isSome then
    match callOutcome plan with
    | Except.ok url => { res with charts := aset res.charts plan.slideIndex url }
    | Except.error _ => res
  else if plan.visualType = VisualType.diagram then
    match callOutcome plan with
    | Except.ok code => { res with diagrams := aset res.diagrams plan.slideIndex code }
    | Except.error _ => res
  else res

/-- The `GeneratingArtifacts` stage: `Promise.all` over the per-plan
units.  Each unit writes only its own slide index, so the concurrent
join is observationally this fold over the plans. -/
def runFanout (vs : VisualServiceConfig)
    (callOutcome : VisualGenerationPlan → Except String String)
    (plans : List VisualGenerationPlan) (res : OrchestrationResult) :
    OrchestrationResult :=
  plans.foldl (applyFanoutUnit vs callOutcome) res

/-- `orchestratePresentation(paperText, config)`.

`analyzeOutcome` is the result of `analyzePaperWithService` (step 1) and
`slidesOutcome` the result of `generateSlidesWithService` (step 2); a
thrown error in either propagates out of the `async` function, so the
pipeline returns that error at once.  When `generateVisuals` is false
or no `visualService` is configured the function returns right after
the critical path with the three maps still empty.  Otherwise it calls
`planVisuals` once and runs the fan-out. -/
def orchestratePresentation
    (analyzeOutcome : Except String PaperMetadata)
    (slidesOutcome : PaperMetadata → Except String (List EnhancedSlide))
    (cfg : OrchestrationConfig)
    (callOutcome : VisualGenerationPlan → Except String String) : PipelineRun :=
  match analyzeOutcome with
  | Except.error e => { result := Except.error e, plannerCalls := 0 }
  | Except.ok metadata =>
    match slidesOutcome metadata with
    | Except.error e => { result := Except.error e, plannerCalls := 0 }
    | Except.ok slides =>
      let base : OrchestrationResult :=
        { slides := slides, visuals := [], charts := [], diagrams := [] }
      if !cfg.generateVisuals || cfg.visualService.isNone then
        { result := Except.ok base, plannerCalls := 0 }
      else
        match cfg.visualService with
        | Option.none => { result := Except.ok base, plannerCalls := 0 }
        | some vs =>
          let plans := planVisuals slides metadata
          { result := Except.ok (runFanout vs callOutcome plans base),
            plannerCalls := 1 }

/-! ### Specification-side definitions used to state the claims -/

/-- Modelled from the spec, for comparison with the code: the ordered
first-match kind classifier of the Work Planner claim (figure hint →
illustration; process pattern → diagram; numeric pattern → chart; math
pattern → equation; periodic slot → illustration; otherwise none). -/
def specClassifyKind (index : Nat) (slide : EnhancedSlide) : VisualType :=
  if figureHint slide then VisualType.illustration
  else if processPattern slide then VisualType.diagram
  else if numericPattern slide then VisualType.chart
  else if mathPattern slide then VisualType.equation
  else if periodicSlot index then VisualType.illustration
  else VisualType.none

/-- Modelled from the spec, for comparison with the code: the
eligibility test the routing claim ascribes to `resolve` — enabled,
and tracked status `healthy`, `degraded`, or `unknown` (a missing
record counting as `unknown` and eligible); only `down` or disabled
is skipped. -/
def claimEligible (st : ManagerState) (serviceId : String) : Bool :=
  match aget st.services serviceId with
  | Option.none => false
  | some s =>
    s.config.enabled &&
      (match aget st.health serviceId with
       | Option.none => true
       | some h => !(h.status == HealthState.down))

/-- The eligibility test the code actually applies at each preferred
id: registered, enabled, and health record absent or `healthy`. -/
def codeEligible (st : ManagerState) (serviceId : String) : Option AIService :=
  match aget st.services serviceId with
  | some s => if s.config.enabled && healthAllows st serviceId then some s else Option.none
  | Option.none => Option.none

/-- The entry a fan-out unit contributes to the `visuals` map: the
slide index and the returned URL, for a nano-banana illustration plan
with a truthy prompt whose call succeeded; nothing otherwise. -/
def visEntry (vs : VisualServiceConfig)
    (callOutcome : VisualGenerationPlan → Except String String)
    (p : VisualGenerationPlan) : Option (Nat × String) :=
  if p.visualType = VisualType.illustration ∧ promptTruthy p.prompt then
    if vs.provider = VisualProvider.nanoBanana then
      match callOutcome p with
      | Except.ok url => some (p.slideIndex, url)
      | Except.error _ => Option.none
    else Option.none
  else Option.none

/-- The entry a fan-out unit contributes to the `charts` map. -/
def chartEntry (_vs : VisualServiceConfig)
    (callOutcome : VisualGenerationPlan → Except String String)
    (p : VisualGenerationPlan) : Option (Nat × String) :=
  if p.visualType = VisualType.illustration ∧ promptTruthy p.prompt then Option.none
  else if p.visualType = VisualType.chart ∧ p.data.isSome then
    match callOutcome p with
    | Except.ok url => some (p.slideIndex, url)
    | Except.error _ => Option.none
  else Option.none

/-- The entry a fan-out unit contributes to the `diagrams` map. -/
def diagEntry (_vs : VisualServiceConfig)
    (callOutcome : VisualGenerationPlan → Except String String)
    (p : VisualGenerationPlan) : Option (Nat × String) :=
  if p.visualType = VisualType.illustration ∧ promptTruthy p.prompt then Option.none
  else if p.visualType = VisualType.chart ∧ p.data.isSome then Option.none
  else if p.visualType = VisualType.diagram then
    match callOutcome p with
    | Except.ok code => some (p.slideIndex, code)
    | Except.error _ => Option.none
  else Option.none

/-- The `visuals` map (empty on a failed run) of a pipeline run. -/
def resultVisuals (run : PipelineRun) : List (Nat × String) :=
  match run.result with
  | Except.ok r => r.visuals
  | Except.error _ => []

/-- The `charts` map (empty on a failed run) of a pipeline run. -/
def resultCharts (run : PipelineRun) : List (Nat × String) :=
  match run.result with
  | Except.ok r => r.charts
  | Except.error _ => []

/-- The `diagrams` map (empty on a failed run) of a pipeline run. -/
def resultDiagrams (run : PipelineRun) : List (Nat × String) :=
  match run.result with
  | Except.ok r => r.diagrams
  | Except.error _ => []

/-! ### Concrete states and inputs used by witnesses and
counterexamples -/

/-- `initState` after the health tracker records `openai-gpt4` as
`degraded`. -/
def st1 : ManagerState :=
  updateHealth initState "openai-gpt4"
    { serviceId := "openai-gpt4", status := HealthState.degraded, latency := 120,
      lastChecked := "t0", errorRate := 0 }

/-- `initState` after disabling the three preferred providers of
`slide-content-generation` and enabling `local-ollama` (a registered
text-analysis provider outside that route's preferred list). -/
def st2 : ManagerState :=
  configureService (configureService (configureService (configureService initState
    "openai-gpt4" { enabled := some false })
    "anthropic-claude" { enabled := some false })
    "google-gemini" { enabled := some false })
    "local-ollama" { enabled := some true }

/-- `initState` after disabling every enabled text-analysis provider
(leaving `local-ollama` disabled as registered). -/
def st3 : ManagerState :=
  configureService (configureService (configureService initState
    "openai-gpt4" { enabled := some false })
    "anthropic-claude" { enabled := some false })
    "google-gemini" { enabled := some false }

/-- A minimal metadata value for pipeline runs. -/
def mdSample : PaperMetadata :=
  { title := "T", authors := [], affiliations := [], abstract := "", keywords := ["ml"] }

/-- A slide with chart layout and one percentage line. -/
def chartSlide : EnhancedSlide :=
  { id := 0, title := "Results", content := ["Accuracy: 95%"], layout := SlideLayout.chart }

/-- A slide whose title contains "method". -/
def methodSlide : EnhancedSlide :=
  { id := 1, title := "Methodology", content := ["step one"], layout := SlideLayout.content }

/-- A slide matched by none of the patterns. -/
def plainSlide : EnhancedSlide :=
  { id := 2, title := "Intro", content := ["plain text"], layout := SlideLayout.content }

/-- A nano-banana visual-service configuration. -/
def nanoCfg : VisualServiceConfig :=
  { provider := VisualProvider.nanoBanana, apiKey := "nb-key" }

/-! ### Helper lemmas: association maps -/

theorem aget_aset_self {κ α : Type} [DecidableEq κ] (m : List (κ × α)) (k : κ) (v : α) :
    aget (aset m k v) k = some v := by
  induction m with
  | nil => simp [aset, aget]
  | cons kv rest ih =>
    obtain ⟨k', v'⟩ := kv
    by_cases h : k' = k
    · simp [aset, aget, h]
    · simp [aset, aget, h, ih]

theorem aget_aset_ne {κ α : Type} [DecidableEq κ] (m : List (κ × α)) (k j : κ) (v : α)
    (h : k ≠ j) : aget (aset m k v) j = aget m j := by
  induction m with
  | nil => simp [aset, aget, h]
  | cons kv rest ih =>
    obtain ⟨k', v'⟩ := kv
    by_cases h' : k' = k
    · subst h'
      simp [aset, aget, h]
    · simp only [aset, if_neg h', aget]
      rw [ih]

theorem aset_of_aget_none {κ α : Type} [DecidableEq κ] (m : List (κ × α)) (k : κ) (v : α)
    (h : aget m k = none) : aset m k v = m ++ [(k, v)] := by
  induction m with
  | nil => rfl
  | cons kv rest ih =>
    obtain ⟨k', v'⟩ := kv
    by_cases h' : k' = k
    · simp [aget, h'] at h
    · simp only [aget, if_neg h'] at h
      simp [aset, h', ih h]

theorem aget_append_single_ne {κ α : Type} [DecidableEq κ] (m : List (κ × α)) (k j : κ)
    (v : α) (h : k ≠ j) : aget (m ++ [(k, v)]) j = aget m j := by
  induction m with
  | nil => simp [aget, h]
  | cons kv rest ih =>
    obtain ⟨k', v'⟩ := kv
    by_cases h' : k' = j
    · simp [aget, h']
    · simp [aget, h', ih]

/-! ### Helper lemmas: the routing walk -/

theorem firstEligible_eq_findSome (st : ManagerState) (ids : List String) :
    firstEligible st ids = ids.findSome? (codeEligible st) := by
  induction ids with
  | nil => rfl
  | cons serviceId rest ih =>
    cases h : aget st.services serviceId with
    | none => simp [firstEligible, codeEligible, h, List.findSome?_cons, ih]
    | some s =>
      cases he : s.config.enabled <;> cases hh : healthAllows st serviceId <;>
        simp [firstEligible, codeEligible, h, he, hh, List.findSome?_cons, ih]

/-! ### Helper lemmas: the work planner -/

theorem classifyPlan_slideIndex (i : Nat) (s : EnhancedSlide) (md : PaperMetadata) :
    (classifyPlan i s md).slideIndex = i := by
  simp only [classifyPlan]
  split_ifs <;> rfl

theorem classifyPlan_visualType (i : Nat) (s : EnhancedSlide) (md : PaperMetadata) :
    (classifyPlan i s md).visualType = specClassifyKind i s := by
  simp only [classifyPlan, specClassifyKind]
  split_ifs <;> rfl

theorem planVisualsGo_eq_filterMap (md : PaperMetadata) (slides : List EnhancedSlide) :
    ∀ n : Nat, planVisualsGo md n slides = (slides.enumFrom n).filterMap (fun x =>
      if (classifyPlan x.1 x.2 md).visualType = VisualType.none then Option.none
      else some (classifyPlan x.1 x.2 md)) := by
  induction slides with
  | nil => intro n; rfl
  | cons s rest ih =>
    intro n
    simp only [planVisualsGo, List.enumFrom_cons, List.filterMap_cons]
    by_cases h : (classifyPlan n s md).visualType = VisualType.none
    · simp [h, ih (n + 1)]
    · simp [h, ih (n + 1)]

theorem planVisualsGo_index_ge (md : PaperMetadata) (slides : List EnhancedSlide) :
    ∀ n p, p ∈ planVisualsGo md n slides → n ≤ p.slideIndex := by
  induction slides with
  | nil => intro n p hp; simp [planVisualsGo] at hp
  | cons s rest ih =>
    intro n p hp
    simp only [planVisualsGo] at hp
    by_cases h : (classifyPlan n s md).visualType ≠ VisualType.none
    · rw [if_pos h] at hp
      rcases List.mem_cons.mp hp with h1 | h2
      · subst h1
        rw [classifyPlan_slideIndex]
      · exact Nat.le_of_succ_le (ih (n + 1) p h2)
    · rw [if_neg h] at hp
      exact Nat.le_of_succ_le (ih (n + 1) p hp)

theorem planVisualsGo_pairwise (md : PaperMetadata) (slides : List EnhancedSlide) :
    ∀ n, (planVisualsGo md n slides).Pairwise (fun p q => p.slideIndex < q.slideIndex) := by
  induction slides with
  | nil => intro n; simp [planVisualsGo]
  | cons s rest ih =>
    intro n
    simp only [planVisualsGo]
    by_cases h : (classifyPlan n s md).visualType ≠ VisualType.none
    · rw [if_pos h]
      refine List.Pairwise.cons ?_ (ih (n + 1))
      intro q hq
      rw [classifyPlan_slideIndex]
      exact Nat.lt_of_succ_le (planVisualsGo_index_ge md rest (n + 1) q hq)
    · rw [if_neg h]
      exact ih (n + 1)

theorem planVisuals_pairwise (slides : List EnhancedSlide) (md : PaperMetadata) :
    (planVisuals slides md).Pairwise (fun p q => p.slideIndex < q.slideIndex) :=
  planVisualsGo_pairwise md slides 0

/-! ### Helper lemmas: the fan-out stage -/

theorem applyFanoutUnit_slides (vs : VisualServiceConfig)
    (o : VisualGenerationPlan → Except String String) (res : OrchestrationResult)
    (p : VisualGenerationPlan) : (applyFanoutUnit vs o res p).slides = res.slides := by
  simp only [applyFanoutUnit]
  split_ifs <;> (try rfl) <;> (cases o p <;> rfl)

theorem applyFanoutUnit_visuals (vs : VisualServiceConfig)
    (o : VisualGenerationPlan → Except String String) (res : OrchestrationResult)
    (p : VisualGenerationPlan) :
    (applyFanoutUnit vs o res p).visuals =
      match visEntry vs o p with
      | some e => aset res.visuals e.1 e.2
      | Option.none => res.visuals := by
  simp only [applyFanoutUnit, visEntry]
  split_ifs <;> (try rfl) <;> (cases o p <;> rfl)

theorem applyFanoutUnit_charts (vs : VisualServiceConfig)
    (o : VisualGenerationPlan → Except String String) (res : OrchestrationResult)
    (p : VisualGenerationPlan) :
    (applyFanoutUnit vs o res p).charts =
      match chartEntry vs o p with
      | some e => aset res.charts e.1 e.2
      | Option.none => res.charts := by
  simp only [applyFanoutUnit, chartEntry]
  split_ifs <;> (try rfl) <;> (cases o p <;> rfl)

theorem applyFanoutUnit_diagrams (vs : VisualServiceConfig)
    (o : VisualGenerationPlan → Except String String) (res : OrchestrationResult)
    (p : VisualGenerationPlan) :
    (applyFanoutUnit vs o res p).diagrams =
      match diagEntry vs o p with
      | some e => aset res.diagrams e.1 e.2
      | Option.none => res.diagrams := by
  simp only [applyFanoutUnit, diagEntry]
  split_ifs <;> (try rfl) <;> (cases o p <;> rfl)

theorem visEntry_key (vs : VisualServiceConfig)
    (o : VisualGenerationPlan → Except String String) (p : VisualGenerationPlan)
    (e : Nat × String) (h : visEntry vs o p = some e) : e.1 = p.slideIndex := by
  simp only [visEntry] at h
  split_ifs at h
  cases ho : o p with
  | error s =>
    rw [ho] at h
    exact Option.noConfusion h
  | ok url =>
    rw [ho] at h
    injection h with h'
    rw [← h']

theorem chartEntry_key (vs : VisualServiceConfig)
    (o : VisualGenerationPlan → Except String String) (p : VisualGenerationPlan)
    (e : Nat × String) (h : chartEntry vs o p = some e) : e.1 = p.slideIndex := by
  simp only [chartEntry] at h
  split_ifs at h
  cases ho : o p with
  | error s =>
    rw [ho] at h
    exact Option.noConfusion h
  | ok url =>
    rw [ho] at h
    injection h with h'
    rw [← h']

theorem diagEntry_key (vs : VisualServiceConfig)
    (o : VisualGenerationPlan → Except String String) (p : VisualGenerationPlan)
    (e : Nat × String) (h : diagEntry vs o p = some e) : e.1 = p.slideIndex := by
  simp only [diagEntry] at h
  split_ifs at h
  cases ho : o p with
  | error s =>
    rw [ho] at h
    exact Option.noConfusion h
  | ok code =>
    rw [ho] at h
    injection h with h'
    rw [← h']

theorem visEntry_type (vs : VisualServiceConfig)
    (o : VisualGenerationPlan → Except String String) (p : VisualGenerationPlan)
    (e : Nat × String) (h : visEntry vs o p = some e) :
    p.visualType = VisualType.illustration := by
  simp only [visEntry] at h
  split_ifs at h with h1 h2
  exact h1.1

theorem chartEntry_type (vs : VisualServiceConfig)
    (o : VisualGenerationPlan → Except String String) (p : VisualGenerationPlan)
    (e : Nat × String) (h : chartEntry vs o p = some e) :
    p.visualType = VisualType.chart := by
  simp only [chartEntry] at h
  split_ifs at h with h1 h2
  exact h2.1

theorem diagEntry_type (vs : VisualServiceConfig)
    (o : VisualGenerationPlan → Except String String) (p : VisualGenerationPlan)
    (e : Nat × String) (h : diagEntry vs o p = some e) :
    p.visualType = VisualType.diagram := by
  simp only [diagEntry] at h
  split_ifs at h with h1 h2 h3
  exact h3

theorem runFanout_spec (vs : VisualServiceConfig)
    (o : VisualGenerationPlan → Except String String) :
    ∀ (plans : List VisualGenerationPlan) (res : OrchestrationResult),
      plans.Pairwise (fun p q => p.slideIndex ≠ q.slideIndex) →
      (∀ p ∈ plans, aget res.visuals p.slideIndex = Option.none ∧
        aget res.charts p.slideIndex = Option.none ∧
        aget res.diagrams p.slideIndex = Option.none) →
      (runFanout vs o plans res).slides = res.slides ∧
      (runFanout vs o plans res).visuals = res.visuals ++ plans.filterMap (visEntry vs o) ∧
      (runFanout vs o plans res).charts = res.charts ++ plans.filterMap (chartEntry vs o) ∧
      (runFanout vs o plans res).diagrams = res.diagrams ++ plans.filterMap (diagEntry vs o) := by
  intro plans
  induction plans with
  | nil =>
    intro res _ _
    simp [runFanout]
  | cons p rest ih =>
    intro res hpw hfresh
    have hne : ∀ q ∈ rest, p.slideIndex ≠ q.slideIndex := (List.pairwise_cons.mp hpw).1
    have hpwrest := (List.pairwise_cons.mp hpw).2
    have hp := hfresh p (List.mem_cons_self p rest)
    have hs : (applyFanoutUnit vs o res p).slides = res.slides :=
      applyFanoutUnit_slides vs o res p
    have hv : (applyFanoutUnit vs o res p).visuals =
        res.visuals ++ (visEntry vs o p).toList := by
      rw [applyFanoutUnit_visuals]
      cases he : visEntry vs o p with
      | none => simp
      | some e =>
        have hkey := visEntry_key vs o p e he
        have : aget res.visuals e.1 = Option.none := by rw [hkey]; exact hp.1
        simp [aset_of_aget_none _ _ _ this]
    have hc : (applyFanoutUnit vs o res p).charts =
        res.charts ++ (chartEntry vs o p).toList := by
      rw [applyFanoutUnit_charts]
      cases he : chartEntry vs o p with
      | none => simp
      | some e =>
        have hkey := chartEntry_key vs o p e he
        have : aget res.charts e.1 = Option.none := by rw [hkey]; exact hp.2.1
        simp [aset_of_aget_none _ _ _ this]
    have hd : (applyFanoutUnit vs o res p).diagrams =
        res.diagrams ++ (diagEntry vs o p).toList := by
      rw [applyFanoutUnit_diagrams]
      cases he : diagEntry vs o p with
      | none => simp
      | some e =>
        have hkey := diagEntry_key vs o p e he
        have : aget res.diagrams e.1 = Option.none := by rw [hkey]; exact hp.2.2
        simp [aset_of_aget_none _ _ _ this]
    have hfresh' : ∀ q ∈ rest, aget (applyFanoutUnit vs o res p).visuals q.slideIndex = Option.none ∧
        aget (applyFanoutUnit vs o res p).charts q.slideIndex = Option.none ∧
        aget (applyFanoutUnit vs o res p).diagrams q.slideIndex = Option.none := by
      intro q hq
      have hq0 := hfresh q (List.mem_cons_of_mem _ hq)
      have hneq := hne q hq
      refine ⟨?_, ?_, ?_⟩
      · rw [hv]
        cases he : visEntry vs o p with
        | none => simpa using hq0.1
        | some e =>
          have hkey := visEntry_key vs o p e he
          have hke : e.1 ≠ q.slideIndex := by rw [hkey]; exact hneq
          calc aget (res.visuals ++ [e]) q.slideIndex
              = aget res.visuals q.slideIndex := aget_append_single_ne _ _ _ _ hke
            _ = Option.none := hq0.1
      · rw [hc]
        cases he : chartEntry vs o p with
        | none => simpa using hq0.2.1
        | some e =>
          have hkey := chartEntry_key vs o p e he
          have hke : e.1 ≠ q.slideIndex := by rw [hkey]; exact hneq
          calc aget (res.charts ++ [e]) q.slideIndex
              = aget res.charts q.slideIndex := aget_append_single_ne _ _ _ _ hke
            _ = Option.none := hq0.2.1
      · rw [hd]
        cases he : diagEntry vs o p with
        | none => simpa using hq0.2.2
        | some e =>
          have hkey := diagEntry_key vs o p e he
          have hke : e.1 ≠ q.slideIndex := by rw [hkey]; exact hneq
          calc aget (res.diagrams ++ [e]) q.slideIndex
              = aget res.diagrams q.slideIndex := aget_append_single_ne _ _ _ _ hke
            _ = Option.none := hq0.2.2
    have hstep : runFanout vs o (p :: rest) res =
        runFanout vs o rest (applyFanoutUnit vs o res p) := rfl
    obtain ⟨ihs, ihv, ihc, ihd⟩ := ih (applyFanoutUnit vs o res p) hpwrest hfresh'
    refine ⟨?_, ?_, ?_, ?_⟩
    · rw [hstep, ihs, hs]
    · rw [hstep, ihv, hv, List.filterMap_cons]
      cases visEntry vs o p <;> simp
    · rw [hstep, ihc, hc, List.filterMap_cons]
      cases chartEntry vs o p <;> simp
    · rw [hstep, ihd, hd, List.filterMap_cons]
      cases diagEntry vs o p <;> simp

theorem aget_entryStep (m : List (Nat × String)) (E : Option (Nat × String)) (i : Nat)
    (hkey : ∀ e, E = some e → e.1 ≠ i) :
    aget (match E with | some e => aset m e.1 e.2 | Option.none => m) i = aget m i := by
  cases E with
  | none => rfl
  | some e => exact aget_aset_ne _ _ _ _ (hkey e rfl)

theorem aget_entryStep_eq (m1 m2 : List (Nat × String)) (E : Option (Nat × String)) (i : Nat)
    (h : aget m1 i = aget m2 i) :
    aget (match E with | some e => aset m1 e.1 e.2 | Option.none => m1) i =
      aget (match E with | some e => aset m2 e.1 e.2 | Option.none => m2) i := by
  cases E with
  | none => exact h
  | some e =>
    by_cases hk : e.1 = i
    · subst hk
      rw [aget_aset_self, aget_aset_self]
    · rw [aget_aset_ne _ _ _ _ hk, aget_aset_ne _ _ _ _ hk]
      exact h

theorem runFanout_aget_congr (vs : VisualServiceConfig)
    (o o' : VisualGenerationPlan → Except String String) (i : Nat) :
    ∀ (plans : List VisualGenerationPlan) (r1 r2 : OrchestrationResult),
      (∀ p ∈ plans, p.slideIndex = i → o p = o' p) →
      aget r1.visuals i = aget r2.visuals i →
      aget r1.charts i = aget r2.charts i →
      aget r1.diagrams i = aget r2.diagrams i →
      aget (runFanout vs o plans r1).visuals i = aget (runFanout vs o' plans r2).visuals i ∧
      aget (runFanout vs o plans r1).charts i = aget (runFanout vs o' plans r2).charts i ∧
      aget (runFanout vs o plans r1).diagrams i = aget (runFanout vs o' plans r2).diagrams i := by
  intro plans
  induction plans with
  | nil =>
    intro r1 r2 _ hv hc hd
    exact ⟨hv, hc, hd⟩
  | cons p rest ih =>
    intro r1 r2 hagree hv hc hd
    have hrest : ∀ q ∈ rest, q.slideIndex = i → o q = o' q :=
      fun q hq => hagree q (List.mem_cons_of_mem _ hq)
    refine ih (applyFanoutUnit vs o r1 p) (applyFanoutUnit vs o' r2 p) hrest ?_ ?_ ?_
    · rw [applyFanoutUnit_visuals, applyFanoutUnit_visuals]
      by_cases hpi : p.slideIndex = i
      · have hoo : o p = o' p := hagree p (List.mem_cons_self p rest) hpi
        have hE : visEntry vs o p = visEntry vs o' p := by
          unfold visEntry
          rw [hoo]
        rw [← hE]
        exact aget_entryStep_eq _ _ _ _ hv
      · rw [aget_entryStep _ _ _ (fun e he => by rw [visEntry_key vs o p e he]; exact hpi),
          aget_entryStep _ _ _ (fun e he => by rw [visEntry_key vs o' p e he]; exact hpi)]
        exact hv
    · rw [applyFanoutUnit_charts, applyFanoutUnit_charts]
      by_cases hpi : p.slideIndex = i
      · have hoo : o p = o' p := hagree p (List.mem_cons_self p rest) hpi
        have hE : chartEntry vs o p = chartEntry vs o' p := by
          unfold chartEntry
          rw [hoo]
        rw [← hE]
        exact aget_entryStep_eq _ _ _ _ hc
      · rw [aget_entryStep _ _ _ (fun e he => by rw [chartEntry_key vs o p e he]; exact hpi),
          aget_entryStep _ _ _ (fun e he => by rw [chartEntry_key vs o' p e he]; exact hpi)]
        exact hc
    · rw [applyFanoutUnit_diagrams, applyFanoutUnit_diagrams]
      by_cases hpi : p.slideIndex = i
      · have hoo : o p = o' p := hagree p (List.mem_cons_self p rest) hpi
        have hE : diagEntry vs o p = diagEntry vs o' p := by
          unfold diagEntry
          rw [hoo]
        rw [← hE]
        exact aget_entryStep_eq _ _ _ _ hd
      · rw [aget_entryStep _ _ _ (fun e he => by rw [diagEntry_key vs o p e he]; exact hpi),
          aget_entryStep _ _ _ (fun e he => by rw [diagEntry_key vs o' p e he]; exact hpi)]
        exact hd

/-! ### Helper lemmas: the priority sort -/

theorem insertionSort_filter_priority (l : List AIService) (p : Nat) :
    (List.insertionSort prioLe l).filter (fun s => effPriority s == p) =
      l.filter (fun s => effPriority s == p) := by
  have hpw : (l.filter (fun s => effPriority s == p)).Pairwise prioLe := by
    apply List.pairwise_of_forall_mem_list
    intro a ha b hb
    have ha' : (effPriority a == p) = true := (List.mem_filter.mp ha).2
    have hb' : (effPriority b == p) = true := (List.mem_filter.mp hb).2
    rw [beq_iff_eq] at ha' hb'
    show effPriority a ≤ effPriority b
    rw [ha', hb']
  have hsub : List.Sublist (l.filter (fun s => effPriority s == p))
      (List.insertionSort prioLe l) :=
    List.sublist_insertionSort hpw (List.filter_sublist l)
  have hsub2 := List.Sublist.filter (fun s => effPriority s == p) hsub
  rw [List.filter_filter] at hsub2
  have hand : (fun a : AIService => (effPriority a == p) && (effPriority a == p)) =
      (fun a : AIService => effPriority a == p) := by
    funext a
    exact Bool.and_self _
  rw [hand] at hsub2
  have hperm := (List.perm_insertionSort prioLe l).filter (fun s => effPriority s == p)
  exact (List.Sublist.eq_of_length hsub2 hperm.length_eq.symm).symm

/-! ### Claim theorems -/

/-- C1, counterexample to the claim as stated: in `st1` the health
tracker records the route's first preferred provider `openai-gpt4` as
`degraded` while it stays enabled, so by the claim (degraded is
eligible) `resolve("paper-analysis")` must return it — the spec-side
eligibility test `claimEligible` accepts it — yet the code skips it and
returns `anthropic-claude`. -/
theorem C1_counterexample :
    (TASK_ROUTING.find? (fun r => r.task == "paper-analysis")).map
        (fun r => r.preferredServices) =
      some ["openai-gpt4", "anthropic-claude", "google-gemini", "local-ollama"] ∧
    claimEligible st1 "openai-gpt4" = true ∧
    (aget st1.health "openai-gpt4").map (fun h => h.status) = some HealthState.degraded ∧
    (getServiceForTask TASK_ROUTING st1 "paper-analysis").map (fun s => s.id) =
      some "anthropic-claude" := by
  refine ⟨rfl, by decide, rfl, rfl⟩

/-- C1 (amended): for every task, `getServiceForTask` walks the found
route's `preferredServices` in order and returns the first provider
that is registered, enabled, and whose tracked health record is absent
or `healthy` (`codeEligible`); a provider with a recorded `degraded`,
`down`, or `unknown` status is skipped, as is a disabled or
unregistered one; a missing health record is eligible.  For a task not
in the table the result is `null`. -/
theorem C1_resolve_first_healthy (routing : List TaskRouting) (st : ManagerState)
    (task : String) :
    getServiceForTask routing st task =
      (routing.find? (fun r => r.task == task)).bind
        (fun r => r.preferredServices.findSome? (codeEligible st)) := by
  unfold getServiceForTask
  cases h : routing.find? (fun r => r.task == task) with
  | none => rfl
  | some r => exact firstEligible_eq_findSome st r.preferredServices

/-- C2, counterexample to the claim as stated: the route
`slide-content-generation` declares `fallbackStrategy = next-available`;
in `st2` all three of its preferred providers are disabled while
`local-ollama` — a registered text-analysis provider outside the
preferred list — is enabled with no health record (hence not `down`).
The claim requires `resolve` to succeed with that provider, but the
code returns `null`: the fallback policy is never consulted. -/
theorem C2_counterexample :
    (TASK_ROUTING.find? (fun r => r.task == "slide-content-generation")).map
        (fun r => r.fallbackStrategy) = some FallbackStrategy.nextAvailable ∧
    (∃ s ∈ avalues st2.services, s.type = ServiceType.textAnalysis ∧
      s.config.enabled = true ∧ aget st2.health s.id = Option.none) ∧
    getServiceForTask TASK_ROUTING st2 "slide-content-generation" = Option.none := by
  refine ⟨rfl, by decide, rfl⟩

/-- C2 (amended): when no provider in the route's preferred list is
eligible, `getServiceForTask` returns `null` regardless of the route's
declared `fallbackStrategy`; no scan of the other registered providers
of the route's capability type is ever performed. -/
theorem C2_no_fallback (routing : List TaskRouting) (st : ManagerState) (task : String)
    (r : TaskRouting) (hr : routing.find? (fun x => x.task == task) = some r)
    (hall : ∀ serviceId ∈ r.preferredServices, codeEligible st serviceId = Option.none) :
    getServiceForTask routing st task = Option.none := by
  unfold getServiceForTask
  rw [hr]
  show firstEligible st r.preferredServices = Option.none
  rw [firstEligible_eq_findSome]
  exact List.findSome?_eq_none_iff.mpr hall

/-- Witness for `C2_no_fallback` at the `slide-content-generation`
route in state `st2`. -/
theorem C2_no_fallback_witness :
    (∀ serviceId ∈ ["openai-gpt4", "anthropic-claude", "google-gemini"],
      codeEligible st2 serviceId = Option.none) ∧
    getServiceForTask TASK_ROUTING st2 "slide-content-generation" = Option.none :=
  ⟨by decide,
    C2_no_fallback TASK_ROUTING st2 "slide-content-generation"
      { task := "slide-content-generation", serviceType := ServiceType.textAnalysis,
        preferredServices := ["openai-gpt4", "anthropic-claude", "google-gemini"],
        fallbackStrategy := FallbackStrategy.nextAvailable }
      (by decide) (by decide)⟩

/-- C5: if the analysis call fails, `orchestratePresentation` returns
that error at once: the work planner is never invoked
(`plannerCalls = 0`), so the artifact-generation and aggregation stages
are never entered, for every downstream configuration and oracle. -/
theorem C5_analysis_failure_fatal (e : String)
    (slidesOutcome : PaperMetadata → Except String (List EnhancedSlide))
    (cfg : OrchestrationConfig)
    (o : VisualGenerationPlan → Except String String) :
    orchestratePresentation (Except.error e) slidesOutcome cfg o =
      { result := Except.error e, plannerCalls := 0 } := rfl

/-- C8, counterexample to the claim as stated: for the absent task
"translate" `getServiceForTask` returns plain `null` — the very same
value it returns for the known task `slide-content-generation` once
its providers are exhausted (state `st3`) — so no distinct
`UnknownTaskError` is produced; no such error type exists anywhere in
the repository. -/
theorem C8_counterexample :
    TASK_ROUTING.find? (fun r => r.task == "translate") = Option.none ∧
    getServiceForTask TASK_ROUTING initState "translate" = Option.none ∧
    (TASK_ROUTING.find? (fun r => r.task == "slide-content-generation")).isSome = true ∧
    getServiceForTask TASK_ROUTING st3 "slide-content-generation" = Option.none := by
  refine ⟨by decide, rfl, by decide, rfl⟩

/-- C8 (amended): for every task name not present in the routing table,
`getServiceForTask` returns `null` (and `domain-experts`'
`getServiceForTask` returns `undefined` for tasks outside its
`taskMap`); neither panics nor returns a provider, and neither raises
a dedicated `UnknownTaskError` — the null result is indistinguishable
from provider exhaustion. -/
theorem C8_unknown_task_returns_null (routing : List TaskRouting) (st : ManagerState)
    (task : String) (services : List AIService) :
    (routing.find? (fun r => r.task == task) = Option.none →
      getServiceForTask routing st task = Option.none) ∧
    (aget taskMap (strToLower task) = Option.none →
      domainGetServiceForTask task services = Option.none) := by
  constructor
  · intro h
    unfold getServiceForTask
    rw [h]
  · intro h
    unfold domainGetServiceForTask
    rw [h]

/-- Witness for `C8_unknown_task_returns_null` at the absent task
"translate". -/
theorem C8_unknown_task_witness :
    getServiceForTask TASK_ROUTING initState "translate" = Option.none ∧
    domainGetServiceForTask "translate" (avalues initState.services) = Option.none :=
  ⟨(C8_unknown_task_returns_null TASK_ROUTING initState "translate"
      (avalues initState.services)).1 (by decide),
    (C8_unknown_task_returns_null TASK_ROUTING initState "translate"
      (avalues initState.services)).2 (by decide)⟩

/-- C9, counterexample to the claim as stated: configuring an
unregistered provider id raises nothing — `configureService` silently
returns the state unchanged; no `UnknownProviderError` type exists
anywhere in the repository. -/
theorem C9_counterexample :
    aget initState.services "missing-provider" = Option.none ∧
    configureService initState "missing-provider" { enabled := some false } = initState := by
  exact ⟨by decide, rfl⟩

/-- C9 (amended): `configureService` on an unregistered id is a silent
no-op (the whole state is returned unchanged, no error); on a
registered id it replaces only that provider's record with the merged
config (`applyPatch`, the object-spread merge), leaving every other
provider's record and the health map unchanged. -/
theorem C9_configure_spec (st : ManagerState) (serviceId : String) (patch : ConfigPatch) :
    (aget st.services serviceId = Option.none → configureService st serviceId patch = st) ∧
    (∀ s, aget st.services serviceId = some s →
      aget (configureService st serviceId patch).services serviceId =
        some { s with config := applyPatch s.config patch } ∧
      (∀ other, other ≠ serviceId →
        aget (configureService st serviceId patch).services other = aget st.services other) ∧
      (configureService st serviceId patch).health = st.health) := by
  constructor
  · intro h
    unfold configureService
    rw [h]
  · intro s h
    unfold configureService
    rw [h]
    exact ⟨aget_aset_self _ _ _,
      fun other hne => aget_aset_ne _ _ _ _ (Ne.symm hne), rfl⟩

/-- The `openai-gpt4` record of `SERVICE_REGISTRY`, used by the C9
witness. -/
def gpt4Svc : AIService :=
  { id := "openai-gpt4", type := ServiceType.textAnalysis, name := "GPT-4o",
    provider := "OpenAI",
    description := "Best for paper analysis, slide content, summaries",
    capabilities := ["paper-analysis", "slide-generation", "summarization", "qa-generation"],
    config := { enabled := true }, priority := some 1 }

/-- Witness for `C9_configure_spec`: the no-op arm at a missing id, and
the merge arm at `openai-gpt4`. -/
theorem C9_configure_witness :
    configureService initState "missing-provider" { model := some "gpt-4o-mini" } = initState ∧
    aget (configureService initState "openai-gpt4"
        { model := some "gpt-4o-mini" }).services "openai-gpt4" =
      some { gpt4Svc with config := applyPatch gpt4Svc.config { model := some "gpt-4o-mini" } } ∧
    aget (configureService initState "openai-gpt4"
        { model := some "gpt-4o-mini" }).services "anthropic-claude" =
      aget initState.services "anthropic-claude" :=
  ⟨(C9_configure_spec initState "missing-provider" { model := some "gpt-4o-mini" }).1
      (by decide),
    ((C9_configure_spec initState "openai-gpt4" { model := some "gpt-4o-mini" }).2 gpt4Svc
      (by decide)).1,
    ((C9_configure_spec initState "openai-gpt4" { model := some "gpt-4o-mini" }).2 gpt4Svc
      (by decide)).2.1 "anthropic-claude" (by decide)⟩

/-- C10: with `generateVisuals` false or no `visualService` configured,
`orchestratePresentation` returns right after the critical path: the
generated slides with the `visuals`, `charts` and `diagrams` maps all
empty, and the work planner is never invoked (`plannerCalls = 0`). -/
theorem C10_no_visuals_mode (metadata : PaperMetadata) (slides : List EnhancedSlide)
    (cfg : OrchestrationConfig) (o : VisualGenerationPlan → Except String String)
    (h : cfg.generateVisuals = false ∨ cfg.visualService = Option.none) :
    orchestratePresentation (Except.ok metadata) (fun _ => Except.ok slides) cfg o =
      { result := Except.ok
          { slides := slides, visuals := [], charts := [], diagrams := [] },
        plannerCalls := 0 } := by
  rcases cfg with ⟨g, v⟩
  rcases h with h | h
  · have : g = false := h
    subst this
    rfl
  · have : v = Option.none := h
    subst this
    cases g <;> rfl

/-- Witness for `C10_no_visuals_mode` with visual generation switched
off while a visual service is configured. -/
theorem C10_no_visuals_witness :
    orchestratePresentation (Except.ok mdSample) (fun _ => Except.ok [chartSlide])
      { generateVisuals := false, visualService := some nanoCfg }
      (fun _ => Except.ok "url") =
      { result := Except.ok
          { slides := [chartSlide], visuals := [], charts := [], diagrams := [] },
        plannerCalls := 0 } :=
  C10_no_visuals_mode mdSample [chartSlide]
    { generateVisuals := false, visualService := some nanoCfg }
    (fun _ => Except.ok "url") (Or.inl rfl)

theorem runFanout_slides (vs : VisualServiceConfig)
    (o : VisualGenerationPlan → Except String String) :
    ∀ (plans : List VisualGenerationPlan) (res : OrchestrationResult),
      (runFanout vs o plans res).slides = res.slides := by
  intro plans
  induction plans with
  | nil => intro res; rfl
  | cons p rest ih =>
    intro res
    have hstep : runFanout vs o (p :: rest) res =
        runFanout vs o rest (applyFanoutUnit vs o res p) := rfl
    rw [hstep, ih, applyFanoutUnit_slides]

theorem fanout_keys_typed {f : VisualGenerationPlan → Option (Nat × String)}
    {vt : VisualType}
    (hkey : ∀ p e, f p = some e → e.1 = p.slideIndex)
    (htype : ∀ p e, f p = some e → p.visualType = vt)
    (plans : List VisualGenerationPlan) (i : Nat)
    (hi : i ∈ (plans.filterMap f).map Prod.fst) :
    ∃ p ∈ plans, p.slideIndex = i ∧ p.visualType = vt := by
  obtain ⟨e, he, hei⟩ := List.mem_map.mp hi
  obtain ⟨p, hp, hpe⟩ := List.mem_filterMap.mp he
  refine ⟨p, hp, ?_, htype p e hpe⟩
  rw [← hkey p e hpe]
  exact hei

/-- C3, counterexample to the claim as stated: one planned WorkItem
(the single chart item, index 0) whose generation call fails.  The
claim requires index 0 to appear in exactly one of `artifactsByIndex`
or `failuresByIndex`; the code's `OrchestrationResult` has no failure
map at all, and the failed index appears in none of the three artifact
maps — the run completes with every map empty. -/
theorem C3_counterexample :
    (planVisuals [chartSlide] mdSample).map (fun p => p.slideIndex) = [0] ∧
    (orchestratePresentation (Except.ok mdSample) (fun _ => Except.ok [chartSlide])
        { generateVisuals := true, visualService := some nanoCfg }
        (fun _ => Except.error "provider call failed")).result =
      Except.ok { slides := [chartSlide], visuals := [], charts := [], diagrams := [] } :=
  ⟨rfl, rfl⟩

/-- C3 (amended): over the planned items, the generation stage records
each successful productive item in exactly one map — `visuals` for
nano-banana illustration items with a truthy prompt, `charts` for
chart items, `diagrams` for diagram items, always keyed by the item's
own slide index (`visEntry`/`chartEntry`/`diagEntry`) — while failed
items, equation items, and illustration items under a non-nano-banana
provider are recorded nowhere (the result has no failure map).  The
three key sets are pairwise disjoint and jointly a subset of the
planned indices. -/
theorem C3_fanout_accounting (vs : VisualServiceConfig)
    (o : VisualGenerationPlan → Except String String)
    (slides : List EnhancedSlide) (metadata : PaperMetadata) :
    (runFanout vs o (planVisuals slides metadata)
        { slides := slides, visuals := [], charts := [], diagrams := [] }).visuals =
      (planVisuals slides metadata).filterMap (visEntry vs o) ∧
    (runFanout vs o (planVisuals slides metadata)
        { slides := slides, visuals := [], charts := [], diagrams := [] }).charts =
      (planVisuals slides metadata).filterMap (chartEntry vs o) ∧
    (runFanout vs o (planVisuals slides metadata)
        { slides := slides, visuals := [], charts := [], diagrams := [] }).diagrams =
      (planVisuals slides metadata).filterMap (diagEntry vs o) ∧
    (∀ i : Nat,
      ¬(i ∈ ((planVisuals slides metadata).filterMap (visEntry vs o)).map Prod.fst ∧
        i ∈ ((planVisuals slides metadata).filterMap (chartEntry vs o)).map Prod.fst) ∧
      ¬(i ∈ ((planVisuals slides metadata).filterMap (visEntry vs o)).map Prod.fst ∧
        i ∈ ((planVisuals slides metadata).filterMap (diagEntry vs o)).map Prod.fst) ∧
      ¬(i ∈ ((planVisuals slides metadata).filterMap (chartEntry vs o)).map Prod.fst ∧
        i ∈ ((planVisuals slides metadata).filterMap (diagEntry vs o)).map Prod.fst)) ∧
    (∀ i : Nat,
      (i ∈ ((planVisuals slides metadata).filterMap (visEntry vs o)).map Prod.fst ∨
        i ∈ ((planVisuals slides metadata).filterMap (chartEntry vs o)).map Prod.fst ∨
        i ∈ ((planVisuals slides metadata).filterMap (diagEntry vs o)).map Prod.fst) →
      i ∈ (planVisuals slides metadata).map VisualGenerationPlan.slideIndex) := by
  have hpw : (planVisuals slides metadata).Pairwise
      (fun p q => p.slideIndex ≠ q.slideIndex) :=
    (planVisuals_pairwise slides metadata).imp (fun h => Nat.ne_of_lt h)
  have hnodup : ((planVisuals slides metadata).map
      VisualGenerationPlan.slideIndex).Nodup :=
    List.pairwise_map.mpr hpw
  obtain ⟨-, hv, hc, hd⟩ := runFanout_spec vs o (planVisuals slides metadata)
    { slides := slides, visuals := [], charts := [], diagrams := [] }
    hpw (fun p _ => ⟨rfl, rfl, rfl⟩)
  rw [List.nil_append] at hv
  rw [List.nil_append] at hc
  rw [List.nil_append] at hd
  refine ⟨hv, hc, hd, ?_, ?_⟩
  · intro i
    refine ⟨?_, ?_, ?_⟩
    · rintro ⟨hiv, hic⟩
      obtain ⟨p, hp, hpi, hpt⟩ := fanout_keys_typed (visEntry_key vs o)
        (visEntry_type vs o) _ i hiv
      obtain ⟨q, hq, hqi, hqt⟩ := fanout_keys_typed (chartEntry_key vs o)
        (chartEntry_type vs o) _ i hic
      have hpq : p = q :=
        List.inj_on_of_nodup_map hnodup hp hq (by rw [hpi, hqi])
      rw [hpq, hqt] at hpt
      exact VisualType.noConfusion hpt
    · rintro ⟨hiv, hid⟩
      obtain ⟨p, hp, hpi, hpt⟩ := fanout_keys_typed (visEntry_key vs o)
        (visEntry_type vs o) _ i hiv
      obtain ⟨q, hq, hqi, hqt⟩ := fanout_keys_typed (diagEntry_key vs o)
        (diagEntry_type vs o) _ i hid
      have hpq : p = q :=
        List.inj_on_of_nodup_map hnodup hp hq (by rw [hpi, hqi])
      rw [hpq, hqt] at hpt
      exact VisualType.noConfusion hpt
    · rintro ⟨hic, hid⟩
      obtain ⟨p, hp, hpi, hpt⟩ := fanout_keys_typed (chartEntry_key vs o)
        (chartEntry_type vs o) _ i hic
      obtain ⟨q, hq, hqi, hqt⟩ := fanout_keys_typed (diagEntry_key vs o)
        (diagEntry_type vs o) _ i hid
      have hpq : p = q :=
        List.inj_on_of_nodup_map hnodup hp hq (by rw [hpi, hqi])
      rw [hpq, hqt] at hpt
      exact VisualType.noConfusion hpt
  · intro i hi
    rcases hi with hiv | hic | hid
    · obtain ⟨p, hp, hpi, -⟩ := fanout_keys_typed (visEntry_key vs o)
        (visEntry_type vs o) _ i hiv
      exact List.mem_map.mpr ⟨p, hp, hpi⟩
    · obtain ⟨p, hp, hpi, -⟩ := fanout_keys_typed (chartEntry_key vs o)
        (chartEntry_type vs o) _ i hic
      exact List.mem_map.mpr ⟨p, hp, hpi⟩
    · obtain ⟨p, hp, hpi, -⟩ := fanout_keys_typed (diagEntry_key vs o)
        (diagEntry_type vs o) _ i hid
      exact List.mem_map.mpr ⟨p, hp, hpi⟩

/-- Witness for `C3_fanout_accounting`: a two-item run (chart at index
0, diagram at index 1) with an all-succeeding oracle; the coverage
conjunct is applied at the diagram's index. -/
theorem C3_fanout_witness :
    1 ∈ (((planVisuals [chartSlide, methodSlide] mdSample).filterMap
        (diagEntry nanoCfg (fun _ => Except.ok "url"))).map Prod.fst) ∧
    1 ∈ ((planVisuals [chartSlide, methodSlide] mdSample).map
        VisualGenerationPlan.slideIndex) :=
  ⟨by decide,
    (C3_fanout_accounting nanoCfg (fun _ => Except.ok "url")
      [chartSlide, methodSlide] mdSample).2.2.2.2 1 (Or.inr (Or.inr (by decide)))⟩

/-- C4: per-item failure isolation of the fan-out.  First, for every
oracle — including one that fails every item — the pipeline still
completes with the critical-path slides (`Except.ok`, never an error).
Second, two oracles that agree on the items of a given slide index
produce the same entry (or absence) at that index in all three maps,
whatever they do on sibling items: one item's failure never perturbs
another item's outcome.  The stage itself is the fold over all planned
items, so it terminates only after every unit has been accounted. -/
theorem C4_fanout_isolation (metadata : PaperMetadata) (slides : List EnhancedSlide)
    (cfg : OrchestrationConfig) (o o' : VisualGenerationPlan → Except String String)
    (i : Nat) :
    ((orchestratePresentation (Except.ok metadata) (fun _ => Except.ok slides) cfg o).result.map
        OrchestrationResult.slides = Except.ok slides) ∧
    ((∀ p ∈ planVisuals slides metadata, p.slideIndex = i → o p = o' p) →
      aget (resultVisuals (orchestratePresentation (Except.ok metadata)
          (fun _ => Except.ok slides) cfg o)) i =
        aget (resultVisuals (orchestratePresentation (Except.ok metadata)
          (fun _ => Except.ok slides) cfg o')) i ∧
      aget (resultCharts (orchestratePresentation (Except.ok metadata)
          (fun _ => Except.ok slides) cfg o)) i =
        aget (resultCharts (orchestratePresentation (Except.ok metadata)
          (fun _ => Except.ok slides) cfg o')) i ∧
      aget (resultDiagrams (orchestratePresentation (Except.ok metadata)
          (fun _ => Except.ok slides) cfg o)) i =
        aget (resultDiagrams (orchestratePresentation (Except.ok metadata)
          (fun _ => Except.ok slides) cfg o')) i) := by
  rcases cfg with ⟨g, v⟩
  constructor
  · cases g <;> rcases v with _ | vs <;>
      simp [orchestratePresentation, runFanout_slides, Except.map]
  · intro hagree
    cases g <;> rcases v with _ | vs
    · exact ⟨rfl, rfl, rfl⟩
    · exact ⟨rfl, rfl, rfl⟩
    · exact ⟨rfl, rfl, rfl⟩
    · have hcongr := runFanout_aget_congr vs o o' i (planVisuals slides metadata)
        { slides := slides, visuals := [], charts := [], diagrams := [] }
        { slides := slides, visuals := [], charts := [], diagrams := [] }
        hagree rfl rfl rfl
      exact hcongr

/-- Witness for `C4_fanout_isolation`: two items (chart index 0,
diagram index 1), an oracle failing everything against one that
succeeds on every index other than 0; they agree on index 0, and the
lookups at index 0 agree across the two runs. -/
theorem C4_fanout_witness :
    ((orchestratePresentation (Except.ok mdSample)
        (fun _ => Except.ok [chartSlide, methodSlide])
        { generateVisuals := true, visualService := some nanoCfg }
        (fun _ => Except.error "down")).result.map OrchestrationResult.slides =
      Except.ok [chartSlide, methodSlide]) ∧
    aget (resultCharts (orchestratePresentation (Except.ok mdSample)
        (fun _ => Except.ok [chartSlide, methodSlide])
        { generateVisuals := true, visualService := some nanoCfg }
        (fun _ => Except.error "down"))) 0 =
      aget (resultCharts (orchestratePresentation (Except.ok mdSample)
        (fun _ => Except.ok [chartSlide, methodSlide])
        { generateVisuals := true, visualService := some nanoCfg }
        (fun p => if p.slideIndex = 0 then Except.error "down"
          else Except.ok "url"))) 0 :=
  ⟨(C4_fanout_isolation mdSample [chartSlide, methodSlide]
      { generateVisuals := true, visualService := some nanoCfg }
      (fun _ => Except.error "down")
      (fun p => if p.slideIndex = 0 then Except.error "down" else Except.ok "url") 0).1,
    ((C4_fanout_isolation mdSample [chartSlide, methodSlide]
      { generateVisuals := true, visualService := some nanoCfg }
      (fun _ => Except.error "down")
      (fun p => if p.slideIndex = 0 then Except.error "down" else Except.ok "url") 0).2
      (by
        intro p _ hidx
        simp [hidx])).2.1⟩

/-- C6: the Work Planner is the pure function `planVisuals`; over any
input it emits, in order, exactly the slides whose ordered first-match
classification (`specClassifyKind`: figure hint → illustration,
process pattern → diagram, numeric pattern → chart, math pattern →
equation, every 5th slide past the first → illustration, otherwise
none) is not `none`, each as one WorkItem carrying its slide's index;
`none`-classified slides produce no WorkItem, and the emitted indices
are strictly increasing.  Determinism holds by construction: the
classification reads nothing but its arguments. -/
theorem C6_work_planner_classification (slides : List EnhancedSlide)
    (metadata : PaperMetadata) :
    (planVisuals slides metadata).map (fun p => (p.slideIndex, p.visualType)) =
      slides.enum.filterMap (fun x =>
        if specClassifyKind x.1 x.2 = VisualType.none then Option.none
        else some (x.1, specClassifyKind x.1 x.2)) ∧
    (planVisuals slides metadata).Pairwise (fun p q => p.slideIndex < q.slideIndex) := by
  refine ⟨?_, planVisuals_pairwise slides metadata⟩
  have henum : slides.enum = slides.enumFrom 0 := rfl
  rw [henum]
  show (planVisualsGo metadata 0 slides).map (fun p => (p.slideIndex, p.visualType)) = _
  rw [planVisualsGo_eq_filterMap metadata slides 0, List.map_filterMap]
  apply List.filterMap_congr
  intro x _
  rw [← classifyPlan_visualType x.1 x.2 metadata]
  by_cases h : (classifyPlan x.1 x.2 metadata).visualType = VisualType.none
  · simp [h]
  · simp [h, classifyPlan_slideIndex]

/-- C7, counterexample to the claim as stated: `local-ollama` is a
registered text-analysis provider (it is in the registry's value list
for that type), yet `getServicesByType` omits it from its result
because it is disabled — the method does not return all registered
providers of the type; it filters by the enabled flag. -/
theorem C7_counterexample :
    ((avalues initState.services).filter
        (fun s => decide (s.type = ServiceType.textAnalysis))).map (fun s => s.id) =
      ["openai-gpt4", "anthropic-claude", "google-gemini", "local-ollama"] ∧
    (getServicesByType initState ServiceType.textAnalysis).map (fun s => s.id) =
      ["openai-gpt4", "anthropic-claude", "google-gemini"] := by
  exact ⟨by decide, by decide⟩

/-- C7 (amended): `getServicesByType` returns the *enabled* registered
providers of the type — health is never consulted — as a permutation
of the enabled-of-type sublist sorted by ascending effective priority
(`a.priority || 99`), with registration order preserved inside each
priority class (the JavaScript sort is stable), and the health map has
no influence on the result (pure read of `services`). -/
theorem C7_listByType_spec (st : ManagerState) (t : ServiceType) :
    List.Sorted prioLe (getServicesByType st t) ∧
    (getServicesByType st t).Perm
      ((avalues st.services).filter (fun s => decide (s.type = t) && s.config.enabled)) ∧
    (∀ p : Nat, (getServicesByType st t).filter (fun s => effPriority s == p) =
      ((avalues st.services).filter
        (fun s => decide (s.type = t) && s.config.enabled)).filter
        (fun s => effPriority s == p)) ∧
    (∀ h : List (String × ServiceHealth),
      getServicesByType { st with health := h } t = getServicesByType st t) := by
  unfold getServicesByType
  exact ⟨List.sorted_insertionSort prioLe _, List.perm_insertionSort prioLe _,
    fun p => insertionSort_filter_priority _ p, fun _ => rfl⟩
